import Mathlib

/-!
Shallow embedding of the comment-classification and cache-refresh pipeline of
the MRToolGH repository (src/data-fetcher.js and src/github-server.js), with
theorems settling the frozen claims about it.

Strings are handled as Lean `String`/`List Char`; the JavaScript regular
expressions used by the classifier are all of one of two shapes, namely
`/\b(w1|w2|...)\b/` over literal words or phrases, or the bare literal `/\?/`,
so regex `.test` is embedded as a direct scan for a word-boundary-delimited
occurrence of one of the alternatives (respectively a character occurrence).
Timestamps are milliseconds since the epoch as `Int` (`Date.now()` values;
an ISO string field that may be `null` or absent becomes `Option Int`).
JavaScript exceptions of the external `gh` CLI calls are embedded as
`Except String` oracles packaged in an `Env` structure; a `catch` in the
source becomes a `match` on the `Except` value.
-/

/-- Character class of the regex word character `\w`: ASCII letters, digits
and underscore, as used by the `\b` boundaries in the classifier patterns. -/
def isWordChar (c : Char) : Bool := c.isAlpha || c.isDigit || c == '_'

/-- Does the word/phrase `w` occur at the head of `s`, with a `\b` word
boundary holding immediately after the occurrence (next character is not a
word character, or the string ends)? All classifier phrases end in a word
character, so this is exactly the trailing `\b` of `/\b(...)\b/`. -/
def matchesHere : List Char → List Char → Bool
  | [], [] => true
  | [], c :: _ => !isWordChar c
  | _ :: _, [] => false
  | a :: as, c :: cs => a == c && matchesHere as cs

/-- Scan `s` for an occurrence of the word/phrase `w` with `\b` boundaries on
both sides. `prev` records whether the character just before the current
position is a word character; all classifier phrases begin with a word
character, so the leading `\b` holds exactly when `prev` is `false`. -/
def scanWord (w : List Char) : Bool → List Char → Bool
  | prev, [] => !prev && matchesHere w []
  | prev, c :: cs => (!prev && matchesHere w (c :: cs)) || scanWord w (isWordChar c) cs

/-- One regular expression from the classifier's pattern tables: either an
alternation of literal words or phrases wrapped in word boundaries
(`/\b(a|b c|...)\b/`), or a bare literal character (`/\?/`). -/
inductive Pat where
  | words : List String → Pat
  | lit : Char → Pat
deriving DecidableEq

/-- `pattern.test(body)` of the source: does the pattern match somewhere in
`body`? -/
def Pat.test (p : Pat) (body : List Char) : Bool :=
  match p with
  | .words ws => ws.any fun w => scanWord w.toList false body
  | .lit c => body.contains c

/-- The early-returning `for (const pattern of patterns) if (pattern.test(body)) ...`
loops of `isCommentActionable`: does some pattern of the group match? -/
def patMatches (pats : List Pat) (body : List Char) : Bool :=
  pats.any fun p => p.test body

/-- The `commentBody.toLowerCase()` step, at the character-list level. -/
def toLowerList (s : String) : List Char := s.toList.map Char.toLower

/-- The action types a classification can carry. -/
inductive ActionType where
  | fix_required | improvement_needed | suggestion | question | request
deriving DecidableEq

/-- The severity tiers a classification can carry. -/
inductive Severity where
  | high | medium | low
deriving DecidableEq

/-- The verdict object returned by `isCommentActionable`: `{actionable}` alone,
or `{actionable, type, severity}`. -/
structure Classification where
  actionable : Bool
  actionType : Option ActionType := none
  severity : Option Severity := none
deriving DecidableEq

namespace DataFetcher

/-- High severity patterns of src/data-fetcher.js `isCommentActionable`. -/
def highSeverityPatterns : List Pat :=
  [.words ["fix", "error", "bug", "broken", "issue", "problem", "wrong"],
   .words ["security", "vulnerability", "exploit", "dangerous"],
   .words ["performance", "slow", "inefficient", "optimize"],
   .words ["memory leak", "deadlock", "race condition"]]

/-- Medium severity patterns of src/data-fetcher.js `isCommentActionable`. -/
def mediumSeverityPatterns : List Pat :=
  [.words ["should", "must", "need to", "have to", "required"],
   .words ["refactor", "restructure", "reorganize", "cleanup"],
   .words ["test", "testing", "unit test", "integration test"],
   .words ["documentation", "docs", "comment", "explain"],
   .words ["style", "format", "convention", "standard"]]

/-- Low severity patterns of src/data-fetcher.js `isCommentActionable`. -/
def lowSeverityPatterns : List Pat :=
  [.words ["consider", "suggest", "might", "could", "perhaps"],
   .words ["improvement", "enhancement", "better"],
   .words ["question", "clarification", "understand"],
   .words ["naming", "variable", "function name"]]

/-- Question patterns of src/data-fetcher.js `isCommentActionable`. -/
def questionPatterns : List Pat :=
  [.lit '?',
   .words ["why", "how", "what", "when", "where", "which"],
   .words ["can you", "could you", "would you"]]

/-- Request patterns of src/data-fetcher.js `isCommentActionable`. -/
def requestPatterns : List Pat :=
  [.words ["please", "add", "remove", "change", "update", "modify"],
   .words ["implement", "create", "build", "develop"]]

/-- `isCommentActionable(commentBody)` of src/data-fetcher.js lines 169-243.
A `null`/absent body is `none`; `if (!commentBody)` is falsy also on the empty
string. -/
def isCommentActionable (commentBody : Option String) : Classification :=
  match commentBody with
  | none => { actionable := false }
  | some str =>
    if str = "" then { actionable := false }
    else
      let body := toLowerList str
      if patMatches highSeverityPatterns body then
        { actionable := true, actionType := some .fix_required, severity := some .high }
      else if patMatches mediumSeverityPatterns body then
        { actionable := true, actionType := some .improvement_needed, severity := some .medium }
      else if patMatches lowSeverityPatterns body then
        { actionable := true, actionType := some .suggestion, severity := some .low }
      else if patMatches questionPatterns body then
        { actionable := true, actionType := some .question, severity := some .medium }
      else if patMatches requestPatterns body then
        { actionable := true, actionType := some .request, severity := some .medium }
      else { actionable := false }

end DataFetcher

namespace GithubServer

/-- High severity actionable patterns of src/github-server.js `isCommentActionable`. -/
def highSeverityPatterns : List Pat :=
  [.words ["fix", "error", "bug", "broken", "issue", "problem", "wrong"],
   .words ["security", "vulnerability", "exploit", "dangerous"],
   .words ["performance", "slow", "inefficient", "optimize"],
   .words ["memory leak", "deadlock", "race condition"]]

/-- Medium severity actionable patterns of src/github-server.js `isCommentActionable`. -/
def mediumSeverityPatterns : List Pat :=
  [.words ["should", "must", "need to", "have to", "required"],
   .words ["refactor", "restructure", "reorganize", "cleanup"],
   .words ["test", "testing", "unit test", "integration test"],
   .words ["documentation", "docs", "comment", "explain"],
   .words ["style", "format", "convention", "standard"]]

/-- Low severity actionable patterns of src/github-server.js `isCommentActionable`. -/
def lowSeverityPatterns : List Pat :=
  [.words ["consider", "suggest", "might", "could", "perhaps"],
   .words ["improvement", "enhancement", "better"],
   .words ["question", "clarification", "understand"],
   .words ["naming", "variable", "function name"]]

/-- Question patterns of src/github-server.js `isCommentActionable`. -/
def questionPatterns : List Pat :=
  [.lit '?',
   .words ["why", "how", "what", "when", "where", "which"],
   .words ["can you", "could you", "would you"]]

/-- Request patterns of src/github-server.js `isCommentActionable`. -/
def requestPatterns : List Pat :=
  [.words ["please", "add", "remove", "change", "update", "modify"],
   .words ["implement", "create", "build", "develop"]]

/-- `isCommentActionable(commentBody)` of src/github-server.js lines 496-590. -/
def isCommentActionable (commentBody : Option String) : Classification :=
  match commentBody with
  | none => { actionable := false }
  | some str =>
    if str = "" then { actionable := false }
    else
      let body := toLowerList str
      if patMatches highSeverityPatterns body then
        { actionable := true, actionType := some .fix_required, severity := some .high }
      else if patMatches mediumSeverityPatterns body then
        { actionable := true, actionType := some .improvement_needed, severity := some .medium }
      else if patMatches lowSeverityPatterns body then
        { actionable := true, actionType := some .suggestion, severity := some .low }
      else if patMatches questionPatterns body then
        { actionable := true, actionType := some .question, severity := some .medium }
      else if patMatches requestPatterns body then
        { actionable := true, actionType := some .request, severity := some .medium }
      else { actionable := false }

end GithubServer

/-- Result object of `gh repo view --json name,owner,url,updatedAt,pushedAt`;
`owner` stands for the `owner.login` the source reads, and the two timestamp
fields may be `null` (`none`). -/
structure RepoData where
  name : String
  owner : String
  url : String
  updatedAt : Option Int
  pushedAt : Option Int
deriving DecidableEq

/-- One element of the `gh pr list --json
number,title,author,createdAt,updatedAt,url,reviewDecision,isDraft` result. -/
structure PR where
  number : Nat
  title : String
  author : String
  createdAt : Int
  updatedAt : Int
  url : String
  reviewDecision : String
  isDraft : Bool
deriving DecidableEq

/-- One line-level review comment from `gh api .../pulls/N/comments`;
`user` stands for `user.login`. -/
structure ReviewComment where
  id : Nat
  user : String
  body : Option String
  created_at : Int
  path : String
  line : Option Nat
  html_url : String
deriving DecidableEq

/-- One general comment from `gh pr view --json comments`; `author` stands for
`author.login`. -/
structure GeneralComment where
  id : Nat
  author : String
  body : Option String
  createdAt : Int
deriving DecidableEq

/-- One formal review from `gh api .../pulls/N/reviews`; `user` stands for
`user.login`. -/
structure Review where
  id : Nat
  user : String
  body : Option String
  submitted_at : Int
  state : String
  html_url : String
deriving DecidableEq

/-- An element pushed onto `actionableComments`: the union of the three object
shapes built in `getActionableComments` (fields absent for a given comment
kind are `none`). -/
structure AComment where
  id : Nat
  type : String
  author : String
  body : Option String
  createdAt : Int
  path : Option String
  line : Option Nat
  state : Option String
  url : String
  actionType : Option ActionType
  severity : Option Severity
deriving DecidableEq

/-- The aggregate built for one PR in `fetchAllData` (the spread `...pr` plus
the computed fields). -/
structure SeverityCounts where
  high : Nat
  medium : Nat
  low : Nat
deriving DecidableEq

/-- A pull request kept in the snapshot, with its aggregation fields. -/
structure PRSummary where
  number : Nat
  title : String
  author : String
  createdAt : Int
  updatedAt : Int
  url : String
  reviewDecision : String
  isDraft : Bool
  actionableComments : List AComment
  actionableCount : Nat
  severityCounts : SeverityCounts
deriving DecidableEq

/-- A repository kept in the snapshot (`repoData` of `fetchAllData`). -/
structure RepoSummary where
  owner : String
  name : String
  url : String
  lastPush : Option Int
  pullRequests : List PRSummary
deriving DecidableEq

/-- The `allData` object persisted to `pr-data.json`. -/
structure Snapshot where
  lastUpdate : Int
  repositories : List RepoSummary
deriving DecidableEq

/-- The object persisted to `last-update.json`. -/
structure UpdateMetadata where
  lastUpdate : Int
  repositoryCount : Nat
  totalPRs : Nat
  totalActionableComments : Nat
deriving DecidableEq

/-- The environment a refresh runs in: the injected clock (`Date.now()`, in
milliseconds) and one oracle per external `gh` call, each returning either the
parsed JSON or a thrown `GitHub CLI error` message. `generalComments` yields
the `comments` field of `gh pr view --json comments`, which may be absent
(`none`), matching the `result.comments || []` guard in the source. -/
structure Env where
  now : Int
  repoView : String → Except String RepoData
  prList : String → String → Except String (List PR)
  reviewComments : String → String → Nat → Except String (List ReviewComment)
  generalComments : String → String → Nat → Except String (Option (List GeneralComment))
  reviews : String → String → Nat → Except String (List Review)

/-- Thirty days in milliseconds (`30 * 24 * 60 * 60 * 1000`). -/
def thirtyDaysMs : Int := 30 * 24 * 60 * 60 * 1000

/-- The hardcoded `reposToMonitor` list of `getRepositoriesToMonitor`. -/
def reposToMonitor : List String := ["h1-aot/aot-base", "ppaul-h-aot/MRToolGH"]

/-- The loop body of `getRepositoriesToMonitor` (src/data-fetcher.js lines
61-75) for one repository name: on a failed `gh repo view` the error is logged
and the repository skipped; otherwise the repository is kept only when
`pushedAt` is truthy and at most 30 days before now. -/
def repoKeep (env : Env) (repoName : String) : Option RepoData :=
  match env.repoView repoName with
  | .error _ => none
  | .ok repoData =>
    match repoData.pushedAt with
    | none => none
    | some t => if env.now - thirtyDaysMs ≤ t then some repoData else none

/-- `getRepositoriesToMonitor()` of src/data-fetcher.js lines 51-82 (the outer
catch that would return `[]` is unreachable: nothing after the per-repository
loop can throw). -/
def getRepositoriesToMonitor (env : Env) : List RepoData :=
  reposToMonitor.filterMap (repoKeep env)

/-- JavaScript truthiness of a nullable string (`null`, `undefined` and `""`
are falsy). -/
def strTruthy : Option String → Bool
  | none => false
  | some s => !(s == "")

/-- The `reviewComments.forEach` body of `getActionableComments`: keep the
comment only when the classifier marks it actionable. -/
def processReviewComment (c : ReviewComment) : Option AComment :=
  let actionable := DataFetcher.isCommentActionable c.body
  if actionable.actionable then
    some { id := c.id, type := "review_comment", author := c.user, body := c.body,
           createdAt := c.created_at, path := some c.path, line := c.line, state := none,
           url := c.html_url, actionType := actionable.actionType,
           severity := actionable.severity }
  else none

/-- The `generalComments.forEach` body of `getActionableComments`. -/
def processGeneralComment (owner repo : String) (prNumber : Nat) (c : GeneralComment) :
    Option AComment :=
  let actionable := DataFetcher.isCommentActionable c.body
  if actionable.actionable then
    some { id := c.id, type := "general_comment", author := c.author, body := c.body,
           createdAt := c.createdAt, path := none, line := none, state := none,
           url := "https://github.com/" ++ owner ++ "/" ++ repo ++ "/pull/"
                    ++ toString prNumber ++ "#issuecomment-" ++ toString c.id,
           actionType := actionable.actionType, severity := actionable.severity }
  else none

/-- The `reviews.forEach` body of `getActionableComments` (src/data-fetcher.js
lines 142-159): a review counts only when its body is truthy AND its state is
not COMMENTED AND the classifier marks the body actionable. -/
def processReview (rv : Review) : Option AComment :=
  if strTruthy rv.body && !(rv.state == "COMMENTED") then
    let actionable := DataFetcher.isCommentActionable rv.body
    if actionable.actionable then
      some { id := rv.id, type := "review", author := rv.user, body := rv.body,
             createdAt := rv.submitted_at, path := none, line := none,
             state := some rv.state, url := rv.html_url,
             actionType := actionable.actionType, severity := actionable.severity }
    else none
  else none

/-- `getActionableComments(owner, repo, prNumber)` of src/data-fetcher.js
lines 85-166: three sequential `gh` calls inside one `catch` that degrades any
failure to an empty list, then the three `forEach` loops pushing in order. -/
def getActionableComments (env : Env) (owner repo : String) (prNumber : Nat) :
    List AComment :=
  match env.reviewComments owner repo prNumber with
  | .error _ => []
  | .ok reviewComments =>
    match env.generalComments owner repo prNumber with
    | .error _ => []
    | .ok generalCommentsField =>
      let generalComments := generalCommentsField.getD []
      match env.reviews owner repo prNumber with
      | .error _ => []
      | .ok reviews =>
        reviewComments.filterMap processReviewComment
          ++ generalComments.filterMap (processGeneralComment owner repo prNumber)
          ++ reviews.filterMap processReview

/-- The per-PR body of `fetchAllData` (src/data-fetcher.js lines 280-301):
fetch the actionable comments and keep the PR only when there is at least
one, with the aggregation fields computed from the kept list. -/
def processPR (env : Env) (owner name : String) (pr : PR) : Option PRSummary :=
  let actionableComments := getActionableComments env owner name pr.number
  if 0 < actionableComments.length then
    some { number := pr.number, title := pr.title, author := pr.author,
           createdAt := pr.createdAt, updatedAt := pr.updatedAt, url := pr.url,
           reviewDecision := pr.reviewDecision, isDraft := pr.isDraft,
           actionableComments := actionableComments,
           actionableCount := actionableComments.length,
           severityCounts :=
             { high := (actionableComments.filter fun c =>
                 c.severity == some Severity.high).length,
               medium := (actionableComments.filter fun c =>
                 c.severity == some Severity.medium).length,
               low := (actionableComments.filter fun c =>
                 c.severity == some Severity.low).length } }
  else none

/-- The fallible part of the per-repository body of `fetchAllData` (lines
260-309): list the PRs (this `gh` call may throw), keep those created within
the last 30 days, and process each. -/
def processRepo (env : Env) (repo : RepoData) : Except String RepoSummary :=
  match env.prList repo.owner repo.name with
  | .error e => .error e
  | .ok prs =>
    let recentPrs := prs.filter fun pr => env.now - thirtyDaysMs ≤ pr.createdAt
    .ok { owner := repo.owner, name := repo.name, url := repo.url,
          lastPush := repo.pushedAt,
          pullRequests := recentPrs.filterMap (processPR env repo.owner repo.name) }

/-- The per-repository step of `fetchAllData` with its catch (lines 257-314):
a throwing repository is logged and skipped, and a repository with no
qualifying PR is not pushed onto `allData.repositories`. -/
def repoStep (env : Env) (repo : RepoData) : Option RepoSummary :=
  match processRepo env repo with
  | .error _ => none
  | .ok repoData => if 0 < repoData.pullRequests.length then some repoData else none

/-- The `allData` value `fetchAllData` builds and returns (before the two
file writes). -/
def fetchAllDataSnapshot (env : Env) : Snapshot :=
  { lastUpdate := env.now,
    repositories := (getRepositoriesToMonitor env).filterMap (repoStep env) }

/-- The contribution of one configured repository name to
`allData.repositories`: its `gh repo view` step followed by its per-repository
processing step. -/
def repoContribution (env : Env) (repoName : String) : Option RepoSummary :=
  (repoKeep env repoName).bind (repoStep env)

/-- The repository name's metadata fetch or pull-request listing throws. -/
def repoProcessingFails (env : Env) (repoName : String) : Prop :=
  (∃ e, env.repoView repoName = .error e)
    ∨ ∃ repoData, repoKeep env repoName = some repoData
        ∧ ∃ e, env.prList repoData.owner repoData.name = .error e

/-- The object written to `last-update.json` (src/data-fetcher.js lines
318-324), with the two `reduce` folds embedded as `foldl`. -/
def metadataOf (allData : Snapshot) : UpdateMetadata :=
  { lastUpdate := allData.lastUpdate,
    repositoryCount := allData.repositories.length,
    totalPRs := allData.repositories.foldl
      (fun sum repo => sum + repo.pullRequests.length) 0,
    totalActionableComments := allData.repositories.foldl
      (fun sum repo => sum + repo.pullRequests.foldl
        (fun prSum pr => prSum + pr.actionableCount) 0) 0 }

/-- The two data files, at the level of the values they hold (`none` =
missing). -/
structure DataFiles where
  prDataFile : Option Snapshot
  lastUpdateFile : Option UpdateMetadata
deriving DecidableEq

/-- The sequence of file-system states a run of `fetchAllData` passes through:
the initial state, the state after the `writeFileSync` of `pr-data.json`
(line 317), and the state after the `writeFileSync` of `last-update.json`
(lines 318-324). -/
def fetchAllDataStates (env : Env) (files : DataFiles) : List DataFiles :=
  let allData := fetchAllDataSnapshot env
  [files,
   { files with prDataFile := some allData },
   { prDataFile := some allData, lastUpdateFile := some (metadataOf allData) }]

/-- `fetchAllData()` of src/data-fetcher.js lines 246-328: the returned
`allData` together with the final file-system state. -/
def fetchAllData (env : Env) (files : DataFiles) : Snapshot × DataFiles :=
  (fetchAllDataSnapshot env,
   { files with
     prDataFile := some (fetchAllDataSnapshot env),
     lastUpdateFile := some (metadataOf (fetchAllDataSnapshot env)) })

/-- The two data files at the raw-contents level, for the read path (`none` =
`fs.existsSync` is false). -/
structure RawFiles where
  prDataFile : Option String
  lastUpdateFile : Option String

/-- `loadCachedData()` of src/data-fetcher.js lines 331-340: `JSON.parse` is
the injected `parseSnapshot`; a missing file falls through to `null` and a
parse throw is caught, logged and also falls through to `null`. -/
def loadCachedData (files : RawFiles)
    (parseSnapshot : String → Except String Snapshot) : Option Snapshot :=
  match files.prDataFile with
  | none => none
  | some contents =>
    match parseSnapshot contents with
    | .error _ => none
    | .ok v => some v

/-- `getLastUpdateInfo()` of src/data-fetcher.js lines 343-352, analogous to
`loadCachedData`. -/
def getLastUpdateInfo (files : RawFiles)
    (parseMeta : String → Except String UpdateMetadata) : Option UpdateMetadata :=
  match files.lastUpdateFile with
  | none => none
  | some contents =>
    match parseMeta contents with
    | .error _ => none
    | .ok v => some v

/-- The `officeHours` configuration set in the constructor (src/data-fetcher.js
lines 17-21). -/
structure OfficeHoursConfig where
  startHour : Nat
  endHour : Nat
  workdays : List Nat
deriving DecidableEq

/-- The configured office hours: 9 to 18, Monday (1) to Friday (5). -/
def officeHours : OfficeHoursConfig :=
  { startHour := 9, endHour := 18, workdays := [1, 2, 3, 4, 5] }

/-- A wall-clock instant as the scheduler reads it: `getDay()` (0 = Sunday),
`getHours()` and `getMinutes()` of `new Date()`. -/
structure WallClock where
  day : Nat
  hours : Nat
  minutes : Nat
deriving DecidableEq

/-- `isOfficeHours()` of src/data-fetcher.js lines 40-48. -/
def isOfficeHours (now : WallClock) : Bool :=
  officeHours.workdays.contains now.day
    && decide (officeHours.startHour ≤ now.hours)
    && decide (now.hours < officeHours.endHour)

/-- The condition under which the minutely `setInterval` callback of
`startScheduledFetcher` (src/data-fetcher.js lines 370-380) triggers
`fetchAllData`. -/
def scheduledFetchFires (now : WallClock) : Bool :=
  isOfficeHours now && now.hours % 3 == 0 && now.minutes == 0

/-- A fixed refresh instant (milliseconds since the epoch) used by the
concrete probe environments below. -/
def baseNow : Int := 1760227200000

/-- One day in milliseconds. -/
def oneDayMs : Int := 86400000

/-- A `gh repo view` result whose most recent push is at the refresh instant. -/
def repoOkFresh : RepoData :=
  { name := "MRToolGH", owner := "ppaul-h-aot",
    url := "https://github.com/ppaul-h-aot/MRToolGH",
    updatedAt := none, pushedAt := some baseNow }

/-- One open pull request created at the refresh instant. -/
def prOne : PR :=
  { number := 1, title := "Add feature", author := "alice", createdAt := baseNow,
    updatedAt := baseNow, url := "https://example.test/pr/1",
    reviewDecision := "", isDraft := false }

/-- A review comment whose body classifies as actionable. -/
def rcFix : ReviewComment :=
  { id := 11, user := "bob", body := some "please fix this bug", created_at := baseNow,
    path := "src/app.js", line := some 3, html_url := "https://example.test/c/11" }

/-- Probe environment for C2: the first configured repository's metadata
fetch throws, the second succeeds and has an actionable pull request. -/
def envC2 : Env :=
  { now := baseNow,
    repoView := fun repoName =>
      if repoName = "ppaul-h-aot/MRToolGH" then .ok repoOkFresh else .error "boom",
    prList := fun _ _ => .ok [prOne],
    reviewComments := fun _ _ _ => .ok [rcFix],
    generalComments := fun _ _ _ => .ok (some []),
    reviews := fun _ _ _ => .ok [] }

/-- A stale pre-refresh metadata file content for the C3 probe. -/
def metaOldC3 : UpdateMetadata :=
  { lastUpdate := 0, repositoryCount := 7, totalPRs := 7, totalActionableComments := 7 }

/-- Probe environment for C3: every `gh` call throws, so the refresh writes an
empty snapshot. -/
def envC3 : Env :=
  { now := baseNow, repoView := fun _ => .error "gh is down",
    prList := fun _ _ => .error "gh is down",
    reviewComments := fun _ _ _ => .error "gh is down",
    generalComments := fun _ _ _ => .error "gh is down",
    reviews := fun _ _ _ => .error "gh is down" }

/-- Pre-refresh file-system state for the C3 probe: no snapshot yet, stale
metadata present. -/
def filesC3 : DataFiles := { prDataFile := none, lastUpdateFile := some metaOldC3 }

/-- The file-system state between the two `writeFileSync` calls of the C3
probe run. -/
def midStateC3 : DataFiles := (fetchAllDataStates envC3 filesC3).getD 1 filesC3

/-- A formal review with state COMMENTED whose body would classify as
actionable. -/
def rvCommentedC4 : Review :=
  { id := 21, user := "carol", body := some "this is broken", submitted_at := baseNow,
    state := "COMMENTED", html_url := "https://example.test/r/21" }

/-- A formal review with a verdict state and an actionable body. -/
def rvChangesC4 : Review :=
  { id := 22, user := "carol", body := some "please fix this", submitted_at := baseNow,
    state := "CHANGES_REQUESTED", html_url := "https://example.test/r/22" }

/-- Probe environment for C4: one COMMENTED review and one
CHANGES_REQUESTED review on the PR. -/
def envC4 : Env :=
  { now := baseNow, repoView := fun _ => .error "unused",
    prList := fun _ _ => .error "unused",
    reviewComments := fun _ _ _ => .ok [],
    generalComments := fun _ _ _ => .ok (some []),
    reviews := fun _ _ _ => .ok [rvCommentedC4, rvChangesC4] }

/-- Review comment classifying high ("fix", "bug"). -/
def rcHighC5 : ReviewComment :=
  { id := 31, user := "bob", body := some "fix this bug", created_at := baseNow,
    path := "a.js", line := some 1, html_url := "https://example.test/c/31" }

/-- Review comment classifying medium ("should", "test"). -/
def rcMediumC5 : ReviewComment :=
  { id := 32, user := "bob", body := some "you should add a test", created_at := baseNow,
    path := "a.js", line := some 2, html_url := "https://example.test/c/32" }

/-- Review comment classifying low ("consider"). -/
def rcLowC5 : ReviewComment :=
  { id := 33, user := "bob", body := some "consider renaming", created_at := baseNow,
    path := "a.js", line := some 3, html_url := "https://example.test/c/33" }

/-- Review comment that is not actionable. -/
def rcNoneC5 : ReviewComment :=
  { id := 34, user := "bob", body := some "lgtm", created_at := baseNow,
    path := "a.js", line := some 4, html_url := "https://example.test/c/34" }

/-- Probe environment for C5: one fresh repository, one PR carrying three
actionable comments (one per severity) and one non-actionable comment. -/
def envC5 : Env :=
  { now := baseNow,
    repoView := fun repoName =>
      if repoName = "ppaul-h-aot/MRToolGH" then .ok repoOkFresh else .error "boom",
    prList := fun _ _ => .ok [prOne],
    reviewComments := fun _ _ _ => .ok [rcHighC5, rcMediumC5, rcLowC5, rcNoneC5],
    generalComments := fun _ _ _ => .ok (some []),
    reviews := fun _ _ _ => .ok [] }

/-- Default repository summary for `List.getD`. -/
def dummyRepoSummary : RepoSummary :=
  { owner := "", name := "", url := "", lastPush := none, pullRequests := [] }

/-- Default PR summary for `List.getD`. -/
def dummyPRSummary : PRSummary :=
  { number := 0, title := "", author := "", createdAt := 0, updatedAt := 0, url := "",
    reviewDecision := "", isDraft := false, actionableComments := [],
    actionableCount := 0, severityCounts := { high := 0, medium := 0, low := 0 } }

/-- The one repository summary the C5 probe snapshot contains. -/
def repoC5 : RepoSummary :=
  ((fetchAllDataSnapshot envC5).repositories).getD 0 dummyRepoSummary

/-- The one PR summary of the C5 probe repository. -/
def prC5 : PRSummary := (repoC5.pullRequests).getD 0 dummyPRSummary

/-- A repository whose most recent push is 31 days before the refresh
instant. -/
def repoStaleC6 : RepoData :=
  { name := "MRToolGH", owner := "ppaul-h-aot",
    url := "https://github.com/ppaul-h-aot/MRToolGH",
    updatedAt := none, pushedAt := some (baseNow - 31 * oneDayMs) }

/-- Probe environment for C6: the repository was pushed 31 days ago but still
has an open PR with an actionable comment. -/
def envC6stale : Env :=
  { now := baseNow,
    repoView := fun repoName =>
      if repoName = "ppaul-h-aot/MRToolGH" then .ok repoStaleC6 else .error "boom",
    prList := fun _ _ => .ok [prOne],
    reviewComments := fun _ _ _ => .ok [rcFix],
    generalComments := fun _ _ _ => .ok (some []),
    reviews := fun _ _ _ => .ok [] }

/-- A repository pushed one day before the refresh instant. -/
def repoFreshC6 : RepoData :=
  { name := "MRToolGH", owner := "ppaul-h-aot",
    url := "https://github.com/ppaul-h-aot/MRToolGH",
    updatedAt := none, pushedAt := some (baseNow - oneDayMs) }

/-- Probe environment for the C6 witness: same as `envC6stale` but with a
fresh push. -/
def envC6fresh : Env :=
  { now := baseNow,
    repoView := fun repoName =>
      if repoName = "ppaul-h-aot/MRToolGH" then .ok repoFreshC6 else .error "boom",
    prList := fun _ _ => .ok [prOne],
    reviewComments := fun _ _ _ => .ok [rcFix],
    generalComments := fun _ _ _ => .ok (some []),
    reviews := fun _ _ _ => .ok [] }

/-- The repository summary the C6 witness snapshot contains. -/
def repoC6fresh : RepoSummary :=
  ((fetchAllDataSnapshot envC6fresh).repositories).getD 0 dummyRepoSummary

/-- Raw file contents for the C7 witness: a present but malformed snapshot
file and a missing metadata file. -/
def rawFilesC7 : RawFiles := { prDataFile := some "not json", lastUpdateFile := none }

/-- A `JSON.parse` stand-in that always throws, for the C7 witness. -/
def parseSnapC7 : String → Except String Snapshot :=
  fun _ => .error "Unexpected token o in JSON"

/-- A `JSON.parse` stand-in for the metadata file that always throws. -/
def parseMetaC7 : String → Except String UpdateMetadata :=
  fun _ => .error "Unexpected token o in JSON"

/-- Monday 09:00, inside the active window, for the C9 witness. -/
def clockC9 : WallClock := { day := 1, hours := 9, minutes := 0 }

/-- C1: the classifier tests the five pattern groups against the lower-cased
body in the fixed order high, medium, low, question, request, first match
winning: any body matching a high-severity pattern classifies as
`fix_required`/`high` regardless of later groups; a body matching a medium
pattern but no high pattern classifies `improvement_needed`/`medium`, and so
on down the chain; and the two concrete probes evaluate as the spec states:
"Could you add a test for this?" hits the medium group ("test") before the
question/request groups, while "What does this do?" falls through to the
question group. -/
theorem C1_classifier_priority_order :
    (∀ b : String,
      patMatches DataFetcher.highSeverityPatterns (toLowerList b) = true →
      DataFetcher.isCommentActionable (some b) =
        { actionable := true, actionType := some .fix_required, severity := some .high })
    ∧ (∀ b : String, b ≠ "" →
      patMatches DataFetcher.highSeverityPatterns (toLowerList b) = false →
      patMatches DataFetcher.mediumSeverityPatterns (toLowerList b) = true →
      DataFetcher.isCommentActionable (some b) =
        { actionable := true, actionType := some .improvement_needed, severity := some .medium })
    ∧ (∀ b : String, b ≠ "" →
      patMatches DataFetcher.highSeverityPatterns (toLowerList b) = false →
      patMatches DataFetcher.mediumSeverityPatterns (toLowerList b) = false →
      patMatches DataFetcher.lowSeverityPatterns (toLowerList b) = true →
      DataFetcher.isCommentActionable (some b) =
        { actionable := true, actionType := some .suggestion, severity := some .low })
    ∧ (∀ b : String, b ≠ "" →
      patMatches DataFetcher.highSeverityPatterns (toLowerList b) = false →
      patMatches DataFetcher.mediumSeverityPatterns (toLowerList b) = false →
      patMatches DataFetcher.lowSeverityPatterns (toLowerList b) = false →
      patMatches DataFetcher.questionPatterns (toLowerList b) = true →
      DataFetcher.isCommentActionable (some b) =
        { actionable := true, actionType := some .question, severity := some .medium })
    ∧ (∀ b : String, b ≠ "" →
      patMatches DataFetcher.highSeverityPatterns (toLowerList b) = false →
      patMatches DataFetcher.mediumSeverityPatterns (toLowerList b) = false →
      patMatches DataFetcher.lowSeverityPatterns (toLowerList b) = false →
      patMatches DataFetcher.questionPatterns (toLowerList b) = false →
      patMatches DataFetcher.requestPatterns (toLowerList b) = true →
      DataFetcher.isCommentActionable (some b) =
        { actionable := true, actionType := some .request, severity := some .medium })
    ∧ DataFetcher.isCommentActionable (some "Could you add a test for this?") =
        { actionable := true, actionType := some .improvement_needed, severity := some .medium }
    ∧ DataFetcher.isCommentActionable (some "What does this do?") =
        { actionable := true, actionType := some .question, severity := some .medium } := by
  refine ⟨?_, ?_, ?_, ?_, ?_, by decide, by decide⟩
  · intro b h
    by_cases hb : b = ""
    · subst hb; exact absurd h (by decide)
    · simp [DataFetcher.isCommentActionable, hb, h]
  · intro b hb h1 h2
    simp [DataFetcher.isCommentActionable, hb, h1, h2]
  · intro b hb h1 h2 h3
    simp [DataFetcher.isCommentActionable, hb, h1, h2, h3]
  · intro b hb h1 h2 h3 h4
    simp [DataFetcher.isCommentActionable, hb, h1, h2, h3, h4]
  · intro b hb h1 h2 h3 h4 h5
    simp [DataFetcher.isCommentActionable, hb, h1, h2, h3, h4, h5]

/-- Witness for C1 at concrete inputs: "this is broken?" matches a
high-severity pattern and classifies high even though it also contains a
question mark, and the classifier chain is exercised down to the request
group on "please merge". -/
theorem C1_classifier_priority_order_witness :
    DataFetcher.isCommentActionable (some "this is broken?") =
      { actionable := true, actionType := some .fix_required, severity := some .high }
    ∧ DataFetcher.isCommentActionable (some "please merge") =
      { actionable := true, actionType := some .request, severity := some .medium } :=
  ⟨C1_classifier_priority_order.1 "this is broken?" (by decide),
   C1_classifier_priority_order.2.2.2.2.1 "please merge" (by decide) (by decide)
     (by decide) (by decide) (by decide) (by decide)⟩

/-- C8: a `null` body and an empty body both classify as
`{actionable: false}` with no action type and no severity. -/
theorem C8_null_and_empty_not_actionable :
    DataFetcher.isCommentActionable none =
      { actionable := false, actionType := none, severity := none }
    ∧ DataFetcher.isCommentActionable (some "") =
      { actionable := false, actionType := none, severity := none } :=
  ⟨rfl, rfl⟩

/-- C10: the classifier duplicated in src/data-fetcher.js and
src/github-server.js is extensionally equal: on every body (including `null`
and the empty string) the two `isCommentActionable` functions return the same
verdict. -/
theorem C10_classifiers_extensionally_equal :
    ∀ b : Option String,
      DataFetcher.isCommentActionable b = GithubServer.isCommentActionable b :=
  fun _ => rfl

/-- Witness for C10 at a concrete body. -/
theorem C10_classifiers_extensionally_equal_witness :
    DataFetcher.isCommentActionable (some "lgtm")
      = GithubServer.isCommentActionable (some "lgtm") :=
  C10_classifiers_extensionally_equal (some "lgtm")

theorem foldl_add_init {α : Type} (f : α → Nat) :
    ∀ (l : List α) (n : Nat), l.foldl (fun s x => s + f x) n = n + (l.map f).sum := by
  intro l
  induction l with
  | nil => intro n; simp
  | cons a l ih =>
    intro n
    simp only [List.foldl_cons, List.map_cons, List.sum_cons, ih]
    omega

theorem actionable_severity (b : Option String)
    (h : (DataFetcher.isCommentActionable b).actionable = true) :
    (DataFetcher.isCommentActionable b).severity = some Severity.high
      ∨ (DataFetcher.isCommentActionable b).severity = some Severity.medium
      ∨ (DataFetcher.isCommentActionable b).severity = some Severity.low := by
  cases b with
  | none => simp [DataFetcher.isCommentActionable] at h
  | some s =>
    by_cases hs : s = ""
    · subst hs; simp [DataFetcher.isCommentActionable] at h
    · cases h1 : patMatches DataFetcher.highSeverityPatterns (toLowerList s) <;>
      cases h2 : patMatches DataFetcher.mediumSeverityPatterns (toLowerList s) <;>
      cases h3 : patMatches DataFetcher.lowSeverityPatterns (toLowerList s) <;>
      cases h4 : patMatches DataFetcher.questionPatterns (toLowerList s) <;>
      cases h5 : patMatches DataFetcher.requestPatterns (toLowerList s) <;>
      simp [DataFetcher.isCommentActionable, hs, h1, h2, h3, h4, h5] at h ⊢

theorem filter_sev_length (l : List AComment)
    (h : ∀ c ∈ l, c.severity = some Severity.high ∨ c.severity = some Severity.medium
        ∨ c.severity = some Severity.low) :
    (l.filter fun c => c.severity == some Severity.high).length
      + (l.filter fun c => c.severity == some Severity.medium).length
      + (l.filter fun c => c.severity == some Severity.low).length = l.length := by
  induction l with
  | nil => rfl
  | cons c l ih =>
    have hc := h c (List.mem_cons_self c l)
    have ihl := ih fun x hx => h x (List.mem_cons_of_mem c hx)
    rcases hc with hc | hc | hc <;> simp [List.filter_cons, hc] <;> omega

theorem processReviewComment_some {c : ReviewComment} {a : AComment}
    (h : processReviewComment c = some a) :
    (DataFetcher.isCommentActionable c.body).actionable = true
      ∧ a.severity = (DataFetcher.isCommentActionable c.body).severity := by
  simp only [processReviewComment] at h
  by_cases hact : (DataFetcher.isCommentActionable c.body).actionable = true
  · simp only [hact, if_true, Option.some.injEq] at h
    subst h
    exact ⟨hact, rfl⟩
  · simp [hact] at h

theorem processGeneralComment_some {owner repo : String} {n : Nat}
    {c : GeneralComment} {a : AComment}
    (h : processGeneralComment owner repo n c = some a) :
    (DataFetcher.isCommentActionable c.body).actionable = true
      ∧ a.severity = (DataFetcher.isCommentActionable c.body).severity := by
  simp only [processGeneralComment] at h
  by_cases hact : (DataFetcher.isCommentActionable c.body).actionable = true
  · simp only [hact, if_true, Option.some.injEq] at h
    subst h
    exact ⟨hact, rfl⟩
  · simp [hact] at h

theorem processReview_some {rv : Review} {a : AComment}
    (h : processReview rv = some a) :
    (DataFetcher.isCommentActionable rv.body).actionable = true
      ∧ a.severity = (DataFetcher.isCommentActionable rv.body).severity := by
  simp only [processReview] at h
  by_cases hg : (strTruthy rv.body && !(rv.state == "COMMENTED")) = true
  · rw [if_pos hg] at h
    by_cases hact : (DataFetcher.isCommentActionable rv.body).actionable = true
    · simp only [hact, if_true, Option.some.injEq] at h
      subst h
      exact ⟨hact, rfl⟩
    · simp [hact] at h
  · rw [if_neg hg] at h
    simp at h

theorem getActionableComments_severity (env : Env) (owner repo : String) (n : Nat) :
    ∀ c ∈ getActionableComments env owner repo n,
      c.severity = some Severity.high ∨ c.severity = some Severity.medium
        ∨ c.severity = some Severity.low := by
  intro c hc
  simp only [getActionableComments] at hc
  split at hc
  · simp at hc
  · split at hc
    · simp at hc
    · split at hc
      · simp at hc
      · rcases List.mem_append.mp hc with h12 | h3
        · rcases List.mem_append.mp h12 with h1 | h2
          · obtain ⟨x, -, hx⟩ := List.mem_filterMap.mp h1
            obtain ⟨hact, hsev⟩ := processReviewComment_some hx
            rw [hsev]
            exact actionable_severity x.body hact
          · obtain ⟨x, -, hx⟩ := List.mem_filterMap.mp h2
            obtain ⟨hact, hsev⟩ := processGeneralComment_some hx
            rw [hsev]
            exact actionable_severity x.body hact
        · obtain ⟨x, -, hx⟩ := List.mem_filterMap.mp h3
          obtain ⟨hact, hsev⟩ := processReview_some hx
          rw [hsev]
          exact actionable_severity x.body hact

theorem processPR_some {env : Env} {owner name : String} {p : PR} {pr : PRSummary}
    (h : processPR env owner name p = some pr) :
    pr.actionableComments = getActionableComments env owner name p.number
      ∧ pr.actionableCount = pr.actionableComments.length
      ∧ 0 < pr.actionableCount
      ∧ pr.severityCounts.high
          = (pr.actionableComments.filter fun c => c.severity == some Severity.high).length
      ∧ pr.severityCounts.medium
          = (pr.actionableComments.filter fun c => c.severity == some Severity.medium).length
      ∧ pr.severityCounts.low
          = (pr.actionableComments.filter fun c => c.severity == some Severity.low).length := by
  simp only [processPR] at h
  split at h
  · rename_i hlen
    simp only [Option.some.injEq] at h
    subst h
    exact ⟨rfl, rfl, hlen, rfl, rfl, rfl⟩
  · simp at h

theorem repoStep_some {env : Env} {rd : RepoData} {rs : RepoSummary}
    (h : repoStep env rd = some rs) :
    rs.lastPush = rd.pushedAt ∧ 0 < rs.pullRequests.length
      ∧ ∀ pr ∈ rs.pullRequests, ∃ p, processPR env rd.owner rd.name p = some pr := by
  cases hq : env.prList rd.owner rd.name with
  | error e => simp [repoStep, processRepo, hq] at h
  | ok prs =>
    simp only [repoStep, processRepo, hq] at h
    split at h
    · rename_i hlen
      simp only [Option.some.injEq] at h
      subst h
      refine ⟨rfl, hlen, ?_⟩
      intro pr hpr
      obtain ⟨p, hpmem, hps⟩ := List.mem_filterMap.mp hpr
      exact ⟨p, hps⟩
    · simp at h

theorem repoKeep_some {env : Env} {repoName : String} {rd : RepoData}
    (h : repoKeep env repoName = some rd) :
    ∃ t, rd.pushedAt = some t ∧ env.now - thirtyDaysMs ≤ t := by
  simp only [repoKeep] at h
  split at h
  · simp at h
  · split at h
    · simp at h
    · rename_i repoData heq t hpush
      split at h
      · rename_i hle
        simp only [Option.some.injEq] at h
        subst h
        exact ⟨t, hpush, hle⟩
      · simp at h

theorem snapshot_invariants (env : Env) :
    ∀ rs ∈ (fetchAllDataSnapshot env).repositories,
      0 < rs.pullRequests.length
      ∧ (∃ t, rs.lastPush = some t ∧ env.now - thirtyDaysMs ≤ t)
      ∧ ∀ pr ∈ rs.pullRequests,
          pr.actionableCount = pr.actionableComments.length
          ∧ 0 < pr.actionableCount
          ∧ pr.severityCounts.high + pr.severityCounts.medium + pr.severityCounts.low
              = pr.actionableCount := by
  intro rs hrs
  simp only [fetchAllDataSnapshot] at hrs
  obtain ⟨rd, hrdmem, hstep⟩ := List.mem_filterMap.mp hrs
  obtain ⟨hlast, hpos, hprs⟩ := repoStep_some hstep
  simp only [getRepositoriesToMonitor] at hrdmem
  obtain ⟨repoName, hname, hkeep⟩ := List.mem_filterMap.mp hrdmem
  obtain ⟨t, hpush, hle⟩ := repoKeep_some hkeep
  refine ⟨hpos, ⟨t, by rw [hlast, hpush], hle⟩, ?_⟩
  intro pr hpr
  obtain ⟨p, hp⟩ := hprs pr hpr
  obtain ⟨hac, hcount, hcpos, hh, hm, hl⟩ := processPR_some hp
  refine ⟨hcount, hcpos, ?_⟩
  rw [hh, hm, hl, hcount]
  apply filter_sev_length
  intro c hc
  rw [hac] at hc
  exact getActionableComments_severity env rd.owner rd.name p.number c hc

/-- C2: `fetchAllData` is a total function of its environment (no exception
escapes it), its repository list is the pointwise sum of each configured
name's independent contribution, and a configured repository whose metadata
fetch or PR listing throws contributes nothing — so all other repositories'
results still appear in the snapshot. -/
theorem C2_repo_failure_isolated :
    ∀ env : Env,
      (fetchAllDataSnapshot env).repositories
          = reposToMonitor.filterMap (repoContribution env)
        ∧ ∀ repoName, repoProcessingFails env repoName →
            repoContribution env repoName = none := by
  intro env
  constructor
  · simp only [fetchAllDataSnapshot, getRepositoriesToMonitor]
    rw [List.filterMap_filterMap]
    rfl
  · intro repoName hfail
    rcases hfail with ⟨e, he⟩ | ⟨rd, hk, e, he⟩
    · simp [repoContribution, repoKeep, he]
    · simp [repoContribution, hk, repoStep, processRepo, he]

/-- Witness for C2: in `envC2` the first configured repository's metadata
fetch throws; its contribution is `none`, while the snapshot still carries
the other repository's result. -/
theorem C2_repo_failure_isolated_witness :
    repoContribution envC2 "h1-aot/aot-base" = none
      ∧ (fetchAllDataSnapshot envC2).repositories
          = reposToMonitor.filterMap (repoContribution envC2)
      ∧ (fetchAllDataSnapshot envC2).repositories.length = 1 :=
  ⟨(C2_repo_failure_isolated envC2).2 "h1-aot/aot-base" (Or.inl ⟨"boom", rfl⟩),
   (C2_repo_failure_isolated envC2).1, by decide⟩

/-- C3 counterexample: the two cache files are written by two separate
sequential `writeFileSync` calls, not one atomic replacement: in the probe
run there is a reachable intermediate file-system state in which
`pr-data.json` already holds the new snapshot while `last-update.json` still
holds the stale pre-refresh metadata, which disagrees with the new
snapshot's counts. -/
theorem C3_not_atomic_counterexample :
    midStateC3 ∈ fetchAllDataStates envC3 filesC3
      ∧ midStateC3.prDataFile = some (fetchAllDataSnapshot envC3)
      ∧ midStateC3.lastUpdateFile = filesC3.lastUpdateFile
      ∧ filesC3.lastUpdateFile ≠ some (metadataOf (fetchAllDataSnapshot envC3)) := by
  decide

/-- C3 amended: `fetchAllData` persists the snapshot and then the metadata as
two sequential whole-file writes (snapshot file first), so between the writes
the snapshot file is updated while the metadata file is stale; in the final
state both files are updated together and the written `UpdateMetadata`'s
`repositoryCount`, `totalPRs` and `totalActionableComments` equal the
corresponding counts computed from the snapshot written at the same moment. -/
theorem C3_sequential_writes_matching_counts :
    ∀ (env : Env) (files : DataFiles),
      fetchAllDataStates env files
          = [files,
             { files with prDataFile := some (fetchAllDataSnapshot env) },
             (fetchAllData env files).2]
        ∧ (fetchAllData env files).2.prDataFile = some (fetchAllDataSnapshot env)
        ∧ (fetchAllData env files).2.lastUpdateFile
            = some (metadataOf (fetchAllDataSnapshot env))
        ∧ (metadataOf (fetchAllDataSnapshot env)).repositoryCount
            = (fetchAllDataSnapshot env).repositories.length
        ∧ (metadataOf (fetchAllDataSnapshot env)).totalPRs
            = ((fetchAllDataSnapshot env).repositories.map
                fun r => r.pullRequests.length).sum
        ∧ (metadataOf (fetchAllDataSnapshot env)).totalActionableComments
            = ((fetchAllDataSnapshot env).repositories.map
                fun r => ((r.pullRequests.map
                    fun pr => pr.actionableComments.length).sum)).sum := by
  intro env files
  refine ⟨rfl, rfl, rfl, rfl, ?_, ?_⟩
  · simp only [metadataOf]
    rw [foldl_add_init]
    simp
  · simp only [metadataOf]
    rw [foldl_add_init]
    simp only [Nat.zero_add]
    congr 1
    apply List.map_congr_left
    intro rs hrs
    rw [foldl_add_init]
    simp only [Nat.zero_add]
    congr 1
    apply List.map_congr_left
    intro pr hpr
    exact ((snapshot_invariants env rs hrs).2.2 pr hpr).1

/-- Witness for C3 (amended) at the concrete probe run. -/
theorem C3_sequential_writes_matching_counts_witness :
    fetchAllDataStates envC3 filesC3
        = [filesC3,
           { filesC3 with prDataFile := some (fetchAllDataSnapshot envC3) },
           (fetchAllData envC3 filesC3).2] :=
  (C3_sequential_writes_matching_counts envC3 filesC3).1

/-- C4: a fetched formal review contributes to a PR's actionable comments
exactly when its body is truthy (present and non-empty), its state is not
COMMENTED, and the classifier marks the body actionable; and when the three
comment fetches succeed, `getActionableComments` is precisely the three
filtered lists concatenated, the reviews entering through `processReview`. -/
theorem C4_review_filter :
    (∀ rv : Review,
      (processReview rv).isSome = true ↔
        ((∃ s, rv.body = some s ∧ s ≠ "") ∧ rv.state ≠ "COMMENTED"
          ∧ (DataFetcher.isCommentActionable rv.body).actionable = true))
    ∧ ∀ (env : Env) (owner repo : String) (n : Nat) rcs gcs rvs,
        env.reviewComments owner repo n = .ok rcs →
        env.generalComments owner repo n = .ok gcs →
        env.reviews owner repo n = .ok rvs →
        getActionableComments env owner repo n
          = rcs.filterMap processReviewComment
              ++ (gcs.getD []).filterMap (processGeneralComment owner repo n)
              ++ rvs.filterMap processReview := by
  constructor
  · intro rv
    simp only [processReview]
    by_cases hg : (strTruthy rv.body && !(rv.state == "COMMENTED")) = true
    · have hg2 := hg
      rw [Bool.and_eq_true] at hg2
      obtain ⟨ht, hst⟩ := hg2
      have hstate : rv.state ≠ "COMMENTED" := by
        intro hcon
        rw [hcon] at hst
        simp at hst
      have hbody : ∃ s, rv.body = some s ∧ s ≠ "" := by
        cases hb : rv.body with
        | none => rw [hb] at ht; simp [strTruthy] at ht
        | some s =>
          refine ⟨s, rfl, ?_⟩
          rw [hb] at ht
          simp [strTruthy] at ht
          exact ht
      rw [if_pos hg]
      by_cases hact : (DataFetcher.isCommentActionable rv.body).actionable = true
      · rw [if_pos hact]
        exact iff_of_true rfl ⟨hbody, hstate, hact⟩
      · rw [if_neg hact]
        refine iff_of_false (by simp) ?_
        rintro ⟨-, -, hcon⟩
        exact hact hcon
    · rw [if_neg hg]
      refine iff_of_false (by simp) ?_
      rintro ⟨⟨s, hbs, hse⟩, hst, -⟩
      apply hg
      rw [hbs]
      simp [strTruthy, hse, hst]
  · intro env owner repo n rcs gcs rvs h1 h2 h3
    simp [getActionableComments, h1, h2, h3]

/-- Witness for C4: the COMMENTED review with an actionable body is excluded,
the CHANGES_REQUESTED review with an actionable body is included, and on the
probe environment the review-derived comments are exactly the filtered review
list. -/
theorem C4_review_filter_witness :
    processReview rvCommentedC4 = none
      ∧ (DataFetcher.isCommentActionable rvCommentedC4.body).actionable = true
      ∧ (processReview rvChangesC4).isSome = true
      ∧ getActionableComments envC4 "ppaul-h-aot" "MRToolGH" 1
          = ([] : List ReviewComment).filterMap processReviewComment
              ++ ([] : List GeneralComment).filterMap
                  (processGeneralComment "ppaul-h-aot" "MRToolGH" 1)
              ++ [rvCommentedC4, rvChangesC4].filterMap processReview := by
  refine ⟨?_, by decide, ?_, ?_⟩
  · refine Option.not_isSome_iff_eq_none.mp ?_
    intro hcon
    obtain ⟨-, hst, -⟩ := (C4_review_filter.1 rvCommentedC4).mp hcon
    exact hst (by decide)
  · exact (C4_review_filter.1 rvChangesC4).mpr
      ⟨⟨"please fix this", by decide, by decide⟩, by decide, by decide⟩
  · exact C4_review_filter.2 envC4 "ppaul-h-aot" "MRToolGH" 1 [] (some [])
      [rvCommentedC4, rvChangesC4] rfl rfl rfl

/-- C5: in every snapshot `fetchAllData` produces, each kept PR has
`actionableCount` equal to the length of its `actionableComments`, severity
counts summing to `actionableCount`, and a positive `actionableCount` (a PR
with zero actionable comments is dropped); and every repository in the
snapshot has at least one PR. -/
theorem C5_aggregation_invariants :
    ∀ env : Env, ∀ rs ∈ (fetchAllDataSnapshot env).repositories,
      rs.pullRequests ≠ []
      ∧ ∀ pr ∈ rs.pullRequests,
          pr.actionableCount = pr.actionableComments.length
          ∧ pr.severityCounts.high + pr.severityCounts.medium + pr.severityCounts.low
              = pr.actionableCount
          ∧ 0 < pr.actionableCount := by
  intro env rs hrs
  obtain ⟨hpos, -, hpr⟩ := snapshot_invariants env rs hrs
  refine ⟨List.length_pos.mp hpos, ?_⟩
  intro pr hp
  exact ⟨(hpr pr hp).1, (hpr pr hp).2.2, (hpr pr hp).2.1⟩

/-- Witness for C5: on the probe environment whose one PR has three
actionable comments (one per severity) and one non-actionable comment, the
kept PR summary has `actionableCount = 3` and severity counts 1/1/1 summing
to 3. -/
theorem C5_aggregation_invariants_witness :
    prC5.actionableCount = prC5.actionableComments.length
      ∧ prC5.severityCounts.high + prC5.severityCounts.medium + prC5.severityCounts.low
          = prC5.actionableCount
      ∧ prC5.actionableCount = 3
      ∧ prC5.severityCounts.high = 1
      ∧ prC5.severityCounts.medium = 1
      ∧ prC5.severityCounts.low = 1 :=
  ⟨((C5_aggregation_invariants envC5 repoC5 (by decide)).2 prC5 (by decide)).1,
   ((C5_aggregation_invariants envC5 repoC5 (by decide)).2 prC5 (by decide)).2.1,
   by decide, by decide, by decide, by decide⟩

/-- C6: every repository in a snapshot produced by `fetchAllData` has a most
recent push within the 30-day window before the refresh instant; and the
concrete repository pushed 31 days ago is excluded from the snapshot even
though its open PR carries an actionable comment. -/
theorem C6_thirty_day_staleness :
    (∀ env : Env, ∀ rs ∈ (fetchAllDataSnapshot env).repositories,
        ∃ t, rs.lastPush = some t ∧ env.now - thirtyDaysMs ≤ t)
    ∧ (fetchAllDataSnapshot envC6stale).repositories = [] := by
  constructor
  · intro env rs hrs
    exact (snapshot_invariants env rs hrs).2.1
  · decide

/-- Witness for C6: the same repository pushed one day ago is kept, and its
recorded push time is inside the window. -/
theorem C6_thirty_day_staleness_witness :
    (∃ t, repoC6fresh.lastPush = some t ∧ envC6fresh.now - thirtyDaysMs ≤ t)
      ∧ (fetchAllDataSnapshot envC6fresh).repositories.length = 1 :=
  ⟨C6_thirty_day_staleness.1 envC6fresh repoC6fresh (by decide), by decide⟩

/-- C7: the two cache reads are total functions that return `none` exactly
when their file is missing or its contents fail to parse — a parse throw is
caught and swallowed, so no exception reaches the caller. -/
theorem C7_cached_reads_never_throw :
    ∀ (files : RawFiles) (parseSnapshot : String → Except String Snapshot)
      (parseMeta : String → Except String UpdateMetadata),
      (loadCachedData files parseSnapshot = none ↔
        files.prDataFile = none
          ∨ ∃ c e, files.prDataFile = some c ∧ parseSnapshot c = .error e)
      ∧ (getLastUpdateInfo files parseMeta = none ↔
        files.lastUpdateFile = none
          ∨ ∃ c e, files.lastUpdateFile = some c ∧ parseMeta c = .error e) := by
  intro files ps pm
  constructor
  · cases hf : files.prDataFile with
    | none => simp [loadCachedData, hf]
    | some c =>
      cases hp : ps c with
      | error e => simp [loadCachedData, hf, hp]
      | ok v => simp [loadCachedData, hf, hp]
  · cases hf : files.lastUpdateFile with
    | none => simp [getLastUpdateInfo, hf]
    | some c =>
      cases hp : pm c with
      | error e => simp [getLastUpdateInfo, hf, hp]
      | ok v => simp [getLastUpdateInfo, hf, hp]

/-- Witness for C7: a malformed snapshot file and a missing metadata file
both read as `null`. -/
theorem C7_cached_reads_never_throw_witness :
    loadCachedData rawFilesC7 parseSnapC7 = none
      ∧ getLastUpdateInfo rawFilesC7 parseMetaC7 = none :=
  ⟨((C7_cached_reads_never_throw rawFilesC7 parseSnapC7 parseMetaC7).1).mpr
     (Or.inr ⟨"not json", "Unexpected token o in JSON", rfl, rfl⟩),
   ((C7_cached_reads_never_throw rawFilesC7 parseSnapC7 parseMetaC7).2).mpr
     (Or.inl rfl)⟩

/-- C9: the minutely scheduler check triggers an automatic refresh at a
wall-clock instant exactly when the weekday is Monday through Friday, the
hour is in the 9-to-18 active window, the hour is divisible by 3 and the
minute is 0; outside the active window it never fires. -/
theorem C9_scheduler_fires_iff :
    ∀ now : WallClock,
      scheduledFetchFires now = true ↔
        ((now.day = 1 ∨ now.day = 2 ∨ now.day = 3 ∨ now.day = 4 ∨ now.day = 5)
          ∧ 9 ≤ now.hours ∧ now.hours < 18
          ∧ now.hours % 3 = 0 ∧ now.minutes = 0) := by
  intro now
  simp only [scheduledFetchFires, isOfficeHours, officeHours, Bool.and_eq_true,
    decide_eq_true_eq, beq_iff_eq, List.elem_iff, List.mem_cons,
    List.not_mem_nil, or_false]
  tauto

/-- Witness for C9: Monday 09:00 is in the window with hour divisible by 3,
so the scheduled fetch fires there. -/
theorem C9_scheduler_fires_iff_witness : scheduledFetchFires clockC9 = true :=
  (C9_scheduler_fires_iff clockC9).mpr
    ⟨Or.inl rfl, by decide, by decide, by decide, by decide⟩
